import Mathlib

/-!
Shallow embedding of the pure-protocol engine of the `libpq.rs` repository:
the wire codec (`src/message.rs`, `src/payload.rs`), the socket framing
(`src/connection/socket.rs`), the connection state (`src/connection/state.rs`)
and the receive loop / send operations (`src/connection/_async.rs`).

Modelling conventions:
* Rust `u8` bytes are `Nat` (always < 256 where produced by the encoders).
* Rust `String` / `Vec<u8>` values are `List Nat` holding the UTF-8 bytes;
  the UTF-8 validity check of `String::from_utf8(..).unwrap()` is elided
  (a Rust `String` is valid UTF-8 by construction, so on values that
  originate from the program the conversion is the identity).
* Machine integers are `Int`/`Nat` with explicit two's-complement reduction
  (`% 2^32`, `% 2^16`) at the points where the source casts.
* Fallible/panicking code paths return `Option` (`none` = panic) or a
  dedicated result inductive.
-/

namespace LibPq

/-- Two's-complement image of an `i32` value as an unsigned 32-bit `Nat`
(the `as u32` / `to_be_bytes` view). -/
def u32ofInt (m : Int) : Nat := (m % 4294967296).toNat

/-- Reinterpret an unsigned 32-bit `Nat` as a signed `i32` (`from_be_bytes`). -/
def i32ofNat (n : Nat) : Int := if n < 2147483648 then (n : Int) else (n : Int) - 4294967296

/-- Reinterpret an unsigned 16-bit `Nat` as a signed `i16`. -/
def i16ofNat (n : Nat) : Int := if n < 32768 then (n : Int) else (n : Int) - 65536

/-- Reinterpret an unsigned byte as a signed `i8`. -/
def i8ofNat (n : Nat) : Int := if n < 128 then (n : Int) else (n : Int) - 256

/-- Big-endian bytes of an unsigned 32-bit value (`i32::to_be_bytes`). -/
def be32 (n : Nat) : List Nat :=
  [n / 16777216 % 256, n / 65536 % 256, n / 256 % 256, n % 256]

/-- Big-endian encoding of an `i32` (`i32::to_be_bytes` after two's complement). -/
def i32be (m : Int) : List Nat := be32 (u32ofInt m)

/-- Big-endian bytes of an unsigned 16-bit value. -/
def be16 (n : Nat) : List Nat := [n / 256 % 256, n % 256]

/-- Big-endian encoding of an `i16`. -/
def i16be (m : Int) : List Nat := be16 ((m % 65536).toNat)

/-- Recombine four big-endian bytes (`from_be_bytes`). -/
def fromBE32 (b0 b1 b2 b3 : Nat) : Nat := ((b0 * 256 + b1) * 256 + b2) * 256 + b3

/-- Recombine two big-endian bytes. -/
def fromBE16 (b0 b1 : Nat) : Nat := b0 * 256 + b1

/-- The `usize` image of an `i32` on a 64-bit target (`len as usize`). -/
def usizeOfI32 (m : Int) : Nat := (m % 18446744073709551616).toNat

theorem be32_fromBE32 (n : Nat) (h : n < 4294967296) :
    fromBE32 (n / 16777216 % 256) (n / 65536 % 256) (n / 256 % 256) (n % 256) = n := by
  unfold fromBE32
  omega

theorem i32be_eq_cons (m : Int) :
    i32be m = [u32ofInt m / 16777216 % 256, u32ofInt m / 65536 % 256,
               u32ofInt m / 256 % 256, u32ofInt m % 256] := rfl

theorem i32ofNat_u32ofInt (m : Int) (h1 : -2147483648 ≤ m) (h2 : m < 2147483648) :
    i32ofNat (u32ofInt m) = m := by
  unfold i32ofNat u32ofInt
  omega

/-! ## Payload reader

`crate::Payload` (src/payload.rs) used for decoding is a byte buffer with a
read cursor; reading past the end is a Rust panic (slice range panic). We
model a reader over the remaining bytes: `none` is a panic. -/

/-- Source `payload.eat(n)`: consume `n` bytes, panic when fewer remain. -/
def eatBytes (n : Nat) (bs : List Nat) : Option (List Nat × List Nat) :=
  if n ≤ bs.length then some (bs.take n, bs.drop n) else none

/-- Source `payload.next::<u8>()`. -/
def nextU8 (bs : List Nat) : Option (Nat × List Nat) :=
  match bs with
  | [] => none
  | b :: r => some (b, r)

/-- Source `payload.next::<i8>()`. -/
def nextI8 (bs : List Nat) : Option (Int × List Nat) :=
  match bs with
  | [] => none
  | b :: r => some (i8ofNat b, r)

/-- Source `payload.next::<i16>()` (big endian, signed). -/
def nextI16 (bs : List Nat) : Option (Int × List Nat) :=
  match bs with
  | b0 :: b1 :: r => some (i16ofNat (fromBE16 b0 b1 % 65536), r)
  | _ => none

/-- Source `payload.next::<i32>()` (big endian, signed). -/
def nextI32 (bs : List Nat) : Option (Int × List Nat) :=
  match bs with
  | b0 :: b1 :: b2 :: b3 :: r => some (i32ofNat (fromBE32 b0 b1 b2 b3 % 4294967296), r)
  | _ => none

/-- Source `payload.next::<u32>()` (big endian, unsigned). -/
def nextU32 (bs : List Nat) : Option (Nat × List Nat) :=
  match bs with
  | b0 :: b1 :: b2 :: b3 :: r => some (fromBE32 b0 b1 b2 b3 % 4294967296, r)
  | _ => none

/-- Source `payload.next::<String>()`: bytes up to the first NUL, the NUL is
consumed but excluded; when no NUL is found, return an empty string
WITHOUT consuming anything (src/payload.rs, `FromPayload for String`). -/
def nextString (bs : List Nat) : Option (List Nat × List Nat) :=
  match bs.findIdx? (· = 0) with
  | none => some ([], bs)
  | some n => some (bs.take n, bs.drop (n + 1))

theorem nextI32_i32be (m : Int) (rest : List Nat)
    (h1 : -2147483648 ≤ m) (h2 : m < 2147483648) :
    nextI32 (i32be m ++ rest) = some (m, rest) := by
  rw [i32be_eq_cons]
  unfold nextI32
  simp only [List.cons_append, List.nil_append]
  have hu : u32ofInt m < 4294967296 := by unfold u32ofInt; omega
  rw [be32_fromBE32 (u32ofInt m) hu]
  rw [Nat.mod_eq_of_lt hu, i32ofNat_u32ofInt m h1 h2]

/-! ## Data model (src/format.rs, src/message.rs, src/connection/config/mod.rs) -/

/-- Source `crate::Format` (src/format.rs): `Text = 0`, `Binary = 1`. -/
inductive Format
  | text
  | binary
deriving DecidableEq, Repr

/-- Source `i32::from(&Format)` / `*format as i32`. -/
def Format.toI32 : Format → Int
  | .text => 0
  | .binary => 1

/-- Source `Format::from(i32)`: `0 => Text`, `1 => Binary`, otherwise `unreachable!()`
(a panic, modelled as `none`). -/
def Format.ofI32 (n : Int) : Option Format :=
  if n = 0 then some .text else if n = 1 then some .binary else none

/-- Source `BindOptions` (src/message.rs). -/
structure BindOptions where
  name : Option (List Nat)
  paramFormats : List Format
  paramValues : List (Option (List Nat))
  resultFormat : Format
deriving DecidableEq, Repr

/-- Source `CancelOptions` (src/message.rs). -/
structure CancelOptions where
  cancelcode : Int
  pid : Int
  secret : Int
deriving DecidableEq, Repr

/-- Source `ParseOptions` (src/message.rs). -/
structure ParseOptions where
  name : Option (List Nat)
  query : List Nat
  paramTypes : List Nat
deriving DecidableEq, Repr

/-- Source `CopyInOptions` (src/message.rs): overall format (`i8`) and per-column
format codes (`i16`). -/
structure CopyInOptions where
  overallFormat : Int
  formats : List Int
deriving DecidableEq, Repr

/-- Source `CopyOutOptions` (src/message.rs). -/
structure CopyOutOptions where
  format : Format
  storage : List Format
deriving DecidableEq, Repr

/-- Source `Notice` (src/message.rs): the decoded field-code → string map of an
ErrorResponse/NoticeResponse. The Rust code stores a
`HashMap<ErrorField, String>`; we keep the (field-code byte, value bytes)
pairs in decode order (the `ErrorField` enum conversion from the code byte
is declared outside the protocol core and is kept as the raw byte here). -/
def Notice := List (Nat × List Nat)
deriving DecidableEq, Repr

/-- Source `crate::connection::Notify`: built in src/payload.rs
(`FromPayload for Notify`) from `pid`, `relname`, `extra`. -/
structure Notify where
  pid : Int
  relname : List Nat
  extra : List Nat
deriving DecidableEq, Repr

/-- Modelled from the spec: the `Attribute` of a decoded `RowDescription`.
The decoding impl (`Attribute::from(&mut Payload)`) is not under src/ (only
its caller in src/message.rs is); spec §4.1 fixes the wire layout: name
(NUL-terminated string), table OID (i32), column number (i16), type OID
(i32), type length (i16), type modifier (i32), format code (i16). -/
structure Attribute where
  name : List Nat
  tableid : Int
  columnid : Int
  typid : Int
  typlen : Int
  atttypmod : Int
  format : Int
deriving DecidableEq, Repr

/-- Source `message::Status` (src/message.rs), the ReadyForQuery payload. -/
inductive RfqStatus
  | idle
  | inTrans
  | inError
  | unknow
deriving DecidableEq, Repr

/-- Source `connection::Config` (src/connection/config/mod.rs). Scalar option
fields are kept with their source types (strings as byte lists). -/
structure Config where
  applicationName : Option (List Nat) := none
  channelBinding : Option Nat := none
  clientEncoding : Option (List Nat) := none
  connectTimeout : Option Int := none
  dbname : Option (List Nat) := none
  fallbackApplicationName : Option (List Nat) := none
  gssencmode : Option Nat := none
  gsslib : Option (List Nat) := none
  hostaddr : Option (List Nat) := none
  host : Option (List Nat) := none
  keepalivesCount : Option Int := none
  keepalivesIdle : Option Int := none
  keepalivesInterval : Option Int := none
  keepalives : Option Bool := none
  krbsrvname : Option (List Nat) := none
  options : Option (List Nat) := none
  passfile : Option (List Nat) := none
  password : Option (List Nat) := none
  port : Option (List Nat) := none
  replication : Option (List Nat) := none
  requirepeer : Option (List Nat) := none
  service : Option (List Nat) := none
  sslcert : Option (List Nat) := none
  sslcompression : Option Bool := none
  sslcrl : Option (List Nat) := none
  sslkey : Option (List Nat) := none
  sslMaxProtocolVersion : Option (List Nat) := none
  sslMinProtocolVersion : Option (List Nat) := none
  sslmode : Option Nat := none
  sslpassword : Option (List Nat) := none
  sslrootcert : Option (List Nat) := none
  targetSessionAttrs : Option Nat := none
  tcpUserTimeout : Option Int := none
  user : Option (List Nat) := none
deriving DecidableEq, Repr

/-- Source `Config::user()`: the `user` field, falling back to the `USER`
environment variable (`std::env::var("USER").unwrap()`; an absent variable
panics, modelled by an `Option` environment). -/
def Config.userValue (c : Config) (envUser : Option (List Nat)) : Option (List Nat) :=
  match c.user with
  | some u => some u
  | none => envUser

/-- Source `Config::database()`: the `dbname` field, falling back to the `USER`
environment variable. -/
def Config.databaseValue (c : Config) (envUser : Option (List Nat)) : Option (List Nat) :=
  match c.dbname with
  | some d => some d
  | none => envUser

/-- Source `crate::Message` (src/message.rs). `DataRow` carries its decoded
fields, `ParameterDescription` the raw type OIDs (the catalog lookup
`Type::try_from(oid)` lives outside the protocol core). -/
inductive Message
  | authentificationOk (n : Int)
  | backendKeyData (pid : Int) (key : Int)
  | bind (o : BindOptions)
  | bindComplete
  | cancelRequest (o : CancelOptions)
  | closeComplete
  | commandComplete (tag : List Nat)
  | copyData (data : List Nat)
  | copyDone
  | copyFail (msg : List Nat)
  | copyInResponse (o : CopyInOptions)
  | copyOut (o : CopyOutOptions)
  | dataRow (row : List (Option (List Nat)))
  | describePortal (name : Option (List Nat))
  | describeStatement (name : Option (List Nat))
  | emptyQuery
  | errorResponse (e : Notice)
  | execute
  | noticeResponse (e : Notice)
  | notificationResponse (n : Notify)
  | parameterDescription (tys : List Nat)
  | parameterStatus (k : List Nat) (v : List Nat)
  | parseComplete
  | parse (o : ParseOptions)
  | query (q : List Nat)
  | readyForQuery (s : RfqStatus)
  | rowDescription (attrs : List Attribute)
  | startup (c : Config)
  | sync
deriving DecidableEq, Repr

/-! ## Backend payload decoders (src/message.rs `From<&mut Payload>` impls) -/

/-- Loop of `From<&mut Payload> for CopyInOptions`: `numfields` reads of `i16`. -/
def readI16s (k : Nat) (bs : List Nat) : Option (List Int × List Nat) :=
  match k with
  | 0 => some ([], bs)
  | k + 1 =>
    match nextI16 bs with
    | none => none
    | some (v, bs1) =>
      match readI16s k bs1 with
      | none => none
      | some (vs, bs2) => some (v :: vs, bs2)

/-- Source `CopyInOptions::from`: overall format (`i8`), field count (`i16`),
then that many `i16` format codes (a non-positive count runs zero
iterations, as `0..n` does in Rust). -/
def decodeCopyInOptions (bs : List Nat) : Option (CopyInOptions × List Nat) :=
  match nextI8 bs with
  | none => none
  | some (overall, bs1) =>
    match nextI16 bs1 with
    | none => none
    | some (numfields, bs2) =>
      match readI16s numfields.toNat bs2 with
      | none => none
      | some (formats, bs3) => some (⟨overall, formats⟩, bs3)

/-- Loop of `CopyOutOptions::from`: `len` reads of `i16` each converted by
`Format::from(i32)` (panicking on codes other than 0/1). -/
def readFormats (k : Nat) (bs : List Nat) : Option (List Format × List Nat) :=
  match k with
  | 0 => some ([], bs)
  | k + 1 =>
    match nextI16 bs with
    | none => none
    | some (v, bs1) =>
      match Format.ofI32 v with
      | none => none
      | some f =>
        match readFormats k bs1 with
        | none => none
        | some (fs, bs2) => some (f :: fs, bs2)

/-- Source `CopyOutOptions::from`: format (`u8` as i32 into `Format`), column
count (`i16`), then that many `i16` format codes. -/
def decodeCopyOutOptions (bs : List Nat) : Option (CopyOutOptions × List Nat) :=
  match nextU8 bs with
  | none => none
  | some (b, bs1) =>
    match Format.ofI32 (b : Int) with
    | none => none
    | some f =>
      match nextI16 bs1 with
      | none => none
      | some (len, bs2) =>
        match readFormats len.toNat bs2 with
        | none => none
        | some (storage, bs3) => some (⟨f, storage⟩, bs3)

/-- Loop of `Notice::from`: `while take(1) != [0]` read a field-code byte
and a NUL-terminated string; the final NUL is consumed. Each iteration
consumes at least the code byte, so the remaining length bounds the
iteration count (the fuel is always sufficient at the top entry). -/
def decodeNoticeAux (fuel : Nat) (bs : List Nat) : Option (Notice × List Nat) :=
  match fuel with
  | 0 => none
  | fuel + 1 =>
    match bs with
    | [] => none
    | 0 :: r => some ([], r)
    | c :: r =>
      match nextString r with
      | none => none
      | some (v, r1) =>
        match decodeNoticeAux fuel r1 with
        | none => none
        | some (rest, r2) => some ((c, v) :: rest, r2)

/-- Source `Notice::from(&mut Payload)` (src/message.rs). -/
def decodeNotice (bs : List Nat) : Option (Notice × List Nat) :=
  decodeNoticeAux (bs.length + 1) bs

/-- Modelled from the spec: `Attribute::from(&mut Payload)` — the per-field
RowDescription decoder is not under src/; spec §4.1 gives its layout. -/
def decodeAttribute (bs : List Nat) : Option (Attribute × List Nat) :=
  match nextString bs with
  | none => none
  | some (name, bs1) =>
    match nextI32 bs1 with
    | none => none
    | some (tableid, bs2) =>
      match nextI16 bs2 with
      | none => none
      | some (columnid, bs3) =>
        match nextI32 bs3 with
        | none => none
        | some (typid, bs4) =>
          match nextI16 bs4 with
          | none => none
          | some (typlen, bs5) =>
            match nextI32 bs5 with
            | none => none
            | some (atttypmod, bs6) =>
              match nextI16 bs6 with
              | none => none
              | some (format, bs7) =>
                some (⟨name, tableid, columnid, typid, typlen, atttypmod, format⟩, bs7)

/-- Loop of `RowDescription::from`: `numfields` attribute decodes. -/
def readAttributes (k : Nat) (bs : List Nat) : Option (List Attribute × List Nat) :=
  match k with
  | 0 => some ([], bs)
  | k + 1 =>
    match decodeAttribute bs with
    | none => none
    | some (a, bs1) =>
      match readAttributes k bs1 with
      | none => none
      | some (as_, bs2) => some (a :: as_, bs2)

/-- Source `RowDescription::from` (src/message.rs). -/
def decodeRowDescription (bs : List Nat) : Option (List Attribute × List Nat) :=
  match nextI16 bs with
  | none => none
  | some (numfields, bs1) => readAttributes numfields.toNat bs1

/-- Loop of `ParameterDescription::from`: `numparams` reads of
`i32` reinterpreted `as u32` OIDs. -/
def readOids (k : Nat) (bs : List Nat) : Option (List Nat × List Nat) :=
  match k with
  | 0 => some ([], bs)
  | k + 1 =>
    match nextI32 bs with
    | none => none
    | some (v, bs1) =>
      match readOids k bs1 with
      | none => none
      | some (vs, bs2) => some (u32ofInt v :: vs, bs2)

/-- Source `ParameterDescription::from` (src/message.rs); the catalog lookup
`Type::try_from(oid).unwrap()` is kept as the raw OID. -/
def decodeParameterDescription (bs : List Nat) : Option (List Nat × List Nat) :=
  match nextI16 bs with
  | none => none
  | some (numparams, bs1) => readOids numparams.toNat bs1

/-- Loop of `DataRow::from`: each field is an `i32` length, then, when the
length is non-negative, that many raw bytes (`Some`); a negative length
yields `None` with no bytes consumed. -/
def readDataFields (k : Nat) (bs : List Nat) :
    Option (List (Option (List Nat)) × List Nat) :=
  match k with
  | 0 => some ([], bs)
  | k + 1 =>
    match nextI32 bs with
    | none => none
    | some (fieldlen, bs1) =>
      if 0 ≤ fieldlen then
        match eatBytes fieldlen.toNat bs1 with
        | none => none
        | some (s, bs2) =>
          match readDataFields k bs2 with
          | none => none
          | some (row, bs3) => some (some s :: row, bs3)
      else
        match readDataFields k bs1 with
        | none => none
        | some (row, bs2) => some (none :: row, bs2)

/-- Source `DataRow::from` (src/message.rs). -/
def decodeDataRow (bs : List Nat) : Option (List (Option (List Nat)) × List Nat) :=
  match nextI16 bs with
  | none => none
  | some (numfields, bs1) => readDataFields numfields.toNat bs1

/-- Source `FromPayload for Notify` (src/payload.rs): pid, relname, extra. -/
def decodeNotify (bs : List Nat) : Option (Notify × List Nat) :=
  match nextI32 bs with
  | none => none
  | some (pid, bs1) =>
    match nextString bs1 with
    | none => none
    | some (relname, bs2) =>
      match nextString bs2 with
      | none => none
      | some (extra, bs3) => some (⟨pid, relname, extra⟩, bs3)

/-- Source `message::Status::from` (src/message.rs): `Unknow` without consuming
when the remaining payload is not exactly one byte, else a one-byte code. -/
def decodeRfqStatus (bs : List Nat) : Option (RfqStatus × List Nat) :=
  if bs.length ≠ 1 then
    some (.unknow, bs)
  else
    match nextU8 bs with
    | none => none
    | some (b, bs1) =>
      if b = 73 then some (.idle, bs1)        -- 'I'
      else if b = 84 then some (.inTrans, bs1) -- 'T'
      else if b = 69 then some (.inError, bs1) -- 'E'
      else some (.unknow, bs1)

/-! ## Message decode (src/message.rs, `Message::from`) -/

/-- Outcome of `Message::from(ty, buf)`: a decoded message, the
`Err(InvalidResponse(ty, buf))` of an unrecognized tag, or a Rust panic
(out-of-range payload read, a failing conversion, or the final
`assert!(payload.is_empty())`). -/
inductive DecodeResult
  | ok (m : Message)
  | invalid (ty : Nat) (buf : List Nat)
  | panic
deriving DecidableEq, Repr

/-- Source `true` on the results the `_ => return Err(InvalidResponse(..))` arm
produces. -/
def DecodeResult.isInvalid : DecodeResult → Bool
  | .invalid _ _ => true
  | _ => false

/-- The tag bytes `Message::from` dispatches on:
`1 2 3 A C d D E G H I K N R S t T Z`. -/
def recognizedTag (ty : Nat) : Bool :=
  ty = 49 ∨ ty = 50 ∨ ty = 51 ∨ ty = 65 ∨ ty = 67 ∨ ty = 100 ∨ ty = 68 ∨
  ty = 69 ∨ ty = 71 ∨ ty = 72 ∨ ty = 73 ∨ ty = 75 ∨ ty = 78 ∨ ty = 82 ∨
  ty = 83 ∨ ty = 116 ∨ ty = 84 ∨ ty = 90

/-- Lift a payload reader to a tag arm, adding the final
`assert!(payload.is_empty())`: leftover bytes after a recognized tag's
fields are a panic. -/
def armThenAssertEmpty (r : Option (Message × List Nat)) : DecodeResult :=
  match r with
  | none => .panic
  | some (m, rest) => if rest.isEmpty then .ok m else .panic

/-- Source `Message::from(ty: char, buf: &[u8])` (src/message.rs). The `'d'` arm
consumes the whole payload (`eat(payload.len())`); `String::from_utf8`
validity is elided (see the module comment). -/
def Message.fromTag (ty : Nat) (buf : List Nat) : DecodeResult :=
  if ty = 49 then armThenAssertEmpty (some (.parseComplete, buf))
  else if ty = 50 then armThenAssertEmpty (some (.bindComplete, buf))
  else if ty = 51 then armThenAssertEmpty (some (.closeComplete, buf))
  else if ty = 65 then
    armThenAssertEmpty ((decodeNotify buf).map fun (n, r) => (.notificationResponse n, r))
  else if ty = 67 then
    armThenAssertEmpty ((nextString buf).map fun (s, r) => (.commandComplete s, r))
  else if ty = 100 then armThenAssertEmpty (some (.copyData buf, []))
  else if ty = 68 then
    armThenAssertEmpty ((decodeDataRow buf).map fun (d, r) => (.dataRow d, r))
  else if ty = 69 then
    armThenAssertEmpty ((decodeNotice buf).map fun (e, r) => (.errorResponse e, r))
  else if ty = 71 then
    armThenAssertEmpty ((decodeCopyInOptions buf).map fun (o, r) => (.copyInResponse o, r))
  else if ty = 72 then
    armThenAssertEmpty ((decodeCopyOutOptions buf).map fun (o, r) => (.copyOut o, r))
  else if ty = 73 then armThenAssertEmpty (some (.emptyQuery, buf))
  else if ty = 75 then
    armThenAssertEmpty ((nextI32 buf).bind fun (pid, r) =>
      (nextI32 r).map fun (key, r1) => (.backendKeyData pid key, r1))
  else if ty = 78 then
    armThenAssertEmpty ((decodeNotice buf).map fun (e, r) => (.noticeResponse e, r))
  else if ty = 82 then
    armThenAssertEmpty ((nextI32 buf).map fun (n, r) => (.authentificationOk n, r))
  else if ty = 83 then
    armThenAssertEmpty ((nextString buf).bind fun (k, r) =>
      (nextString r).map fun (v, r1) => (.parameterStatus k v, r1))
  else if ty = 116 then
    armThenAssertEmpty ((decodeParameterDescription buf).map fun (t, r) =>
      (.parameterDescription t, r))
  else if ty = 84 then
    armThenAssertEmpty ((decodeRowDescription buf).map fun (a, r) => (.rowDescription a, r))
  else if ty = 90 then
    armThenAssertEmpty ((decodeRfqStatus buf).map fun (s, r) => (.readyForQuery s, r))
  else .invalid ty buf

/-! ## Message encode (src/message.rs: `ty`, `payload`, `len`, `to_bytes`) -/

/-- Source `Message::ty` (src/message.rs): the outgoing tag byte; `None` for
`Startup` and `CancelRequest`. -/
def Message.tagByte : Message → Option Nat
  | .authentificationOk _ => some 82      -- 'R'
  | .backendKeyData _ _ => some 75        -- 'K'
  | .bind _ => some 66                    -- 'B'
  | .bindComplete => some 50              -- '2'
  | .cancelRequest _ => none
  | .closeComplete => some 51             -- '3'
  | .commandComplete _ => some 67         -- 'C'
  | .copyData _ => some 100               -- 'd'
  | .copyDone => some 99                  -- 'c'
  | .copyFail _ => some 102               -- 'f'
  | .copyInResponse _ => some 82          -- 'R'
  | .copyOut _ => some 72                 -- 'H'
  | .dataRow _ => some 68                 -- 'D'
  | .describePortal _ => some 68          -- 'D'
  | .describeStatement _ => some 68       -- 'D'
  | .emptyQuery => some 73                -- 'I'
  | .errorResponse _ => some 69           -- 'E'
  | .execute => some 69                   -- 'E'
  | .noticeResponse _ => some 78          -- 'N'
  | .notificationResponse _ => some 65    -- 'A'
  | .parameterDescription _ => some 116   -- 't'
  | .parameterStatus _ _ => some 83       -- 'S'
  | .parseComplete => some 49             -- '1'
  | .parse _ => some 80                   -- 'P'
  | .query _ => some 81                   -- 'Q'
  | .readyForQuery _ => some 90           -- 'Z'
  | .rowDescription _ => some 84          -- 'T'
  | .startup _ => none
  | .sync => some 83                      -- 'S'

/-- Source `extend(name)` for an `Option<String>`: the bytes, or nothing. -/
def optBytes : Option (List Nat) → List Nat
  | some s => s
  | none => []

/-- The parameter-value loop of the Bind arm of `Message::payload`
(src/message.rs): at position `n`, `None` encodes as length `-1`; a
`Some(param)` whose declared format is `Binary` encodes its full length
and bytes; any other `Some(param)` encodes `param.len() - 1` and the first
`param.len() - 1` bytes. For an empty buffer in the non-binary case the
`usize` subtraction / slice indexing panics (`none`). -/
def bindParamLoop (fmts : List Format) (n : Nat) :
    List (Option (List Nat)) → Option (List Nat)
  | [] => some []
  | p :: rest =>
    match p with
    | none =>
      match bindParamLoop fmts (n + 1) rest with
      | none => none
      | some tl => some (i32be (-1) ++ tl)
    | some param =>
      if fmts.get? n = some .binary then
        match bindParamLoop fmts (n + 1) rest with
        | none => none
        | some tl => some (i32be (param.length : Int) ++ param ++ tl)
      else
        match param with
        | [] => none
        | _ =>
          match bindParamLoop fmts (n + 1) rest with
          | none => none
          | some tl =>
            some (i32be ((param.length - 1 : Nat) : Int) ++
                  param.take (param.length - 1) ++ tl)

/-- The `hm.iter().fold(..)` of the Startup arm: each key/value pair as
`key NUL value NUL`. The source folds over a two-entry `HashMap` whose
iteration order is unspecified; we fix insertion order (`user` then
`database`), which no claim distinguishes. -/
def startupPairs (pairs : List (List Nat × List Nat)) : List Nat :=
  match pairs with
  | [] => []
  | (k, v) :: rest => k ++ [0] ++ v ++ [0] ++ startupPairs rest

/-- The bytes of the key `"user"`. -/
def userKey : List Nat := [117, 115, 101, 114]

/-- The bytes of the key `"database"`. -/
def databaseKey : List Nat := [100, 97, 116, 97, 98, 97, 115, 101]

/-- Source `HashMap::from(&Config)` (src/connection/config/mod.rs): exactly the
`user` and `database` entries, via `Config::user()` / `Config::database()`
(panicking — `none` — when a missing field's `USER` fallback is unset). -/
def configPairs (c : Config) (envUser : Option (List Nat)) :
    Option (List (List Nat × List Nat)) :=
  match c.userValue envUser with
  | none => none
  | some u =>
    match c.databaseValue envUser with
    | none => none
    | some d => some [(userKey, u), (databaseKey, d)]

/-- Source `Message::payload` (src/message.rs). `none` is a panic: the Bind
empty-buffer case, a Startup with no resolvable user/database, or the
`_ => unreachable!()` arm (every message the frontend never sends). -/
def Message.payloadBytes (envUser : Option (List Nat)) : Message → Option (List Nat)
  | .bind o =>
    match bindParamLoop o.paramFormats 0 o.paramValues with
    | none => none
    | some params =>
      some ([0] ++ optBytes o.name ++ [0] ++
            i16be (o.paramFormats.length : Int) ++
            (o.paramFormats.map fun f => i16be f.toI32).flatten ++
            i16be (o.paramValues.length : Int) ++
            params ++
            i16be 1 ++ i16be o.resultFormat.toI32)
  | .cancelRequest o => some (i32be o.cancelcode ++ i32be o.pid ++ i32be o.secret)
  | .closeComplete => some []
  | .copyData data => some data
  | .copyFail msg => some (msg ++ [0])
  | .copyDone => some []
  | .describeStatement name => some ([83] ++ optBytes name ++ [0])
  | .describePortal name => some ([80] ++ optBytes name ++ [0])
  | .execute => some ([0] ++ i32be 0)
  | .parse o =>
    some (optBytes o.name ++ [0] ++ o.query ++ [0] ++
          i16be (o.paramTypes.length : Int) ++
          (o.paramTypes.map fun t => i32be (t : Int)).flatten)
  | .query q => some (q ++ [0])
  | .startup c =>
    match configPairs c envUser with
    | none => none
    | some pairs => some ([0, 3, 0, 0] ++ startupPairs pairs ++ [0])
  | .sync => some []
  | _ => none

/-- Source `Message::to_bytes` (src/message.rs): optional tag byte, big-endian
`i32` frame length (`payload.len() + 4`), then the payload. -/
def Message.toBytes (envUser : Option (List Nat)) (m : Message) : Option (List Nat) :=
  match m.payloadBytes envUser with
  | none => none
  | some p =>
    some ((match m.tagByte with | some t => [t] | none => []) ++
          i32be ((p.length : Int) + 4) ++ p)

/-! ## Connection state (src/connection/state.rs) -/

/-- Source `AsyncStatus` (src/connection/state.rs): a `bitflags` set; `IDLE` is
the empty set. Modelled as one `Bool` per flag. -/
structure AsyncStatus where
  prepare : Bool := false
  bindF : Bool := false
  executeF : Bool := false
  describeStatement : Bool := false
  describeRow : Bool := false
  copyIn : Bool := false
  copyOut : Bool := false
  ready : Bool := false
  connect : Bool := false
  beginF : Bool := false
deriving DecidableEq, Repr

namespace AsyncStatus

/-- The empty set (`AsyncStatus::IDLE`). -/
def idle : AsyncStatus := {}

def prepareFlag : AsyncStatus := { prepare := true }
def bindFlag : AsyncStatus := { bindF := true }
def executeFlag : AsyncStatus := { executeF := true }
def describeStatementFlag : AsyncStatus := { describeStatement := true }
def describeRowFlag : AsyncStatus := { describeRow := true }
def copyInFlag : AsyncStatus := { copyIn := true }
def copyOutFlag : AsyncStatus := { copyOut := true }
def connectFlag : AsyncStatus := { connect := true }
def beginFlag : AsyncStatus := { beginF := true }

/-- Source `bitflags` union (`|` / `insert`). -/
def union (a b : AsyncStatus) : AsyncStatus where
  prepare := a.prepare || b.prepare
  bindF := a.bindF || b.bindF
  executeF := a.executeF || b.executeF
  describeStatement := a.describeStatement || b.describeStatement
  describeRow := a.describeRow || b.describeRow
  copyIn := a.copyIn || b.copyIn
  copyOut := a.copyOut || b.copyOut
  ready := a.ready || b.ready
  connect := a.connect || b.connect
  beginF := a.beginF || b.beginF

/-- Source `bitflags` removal (`remove`). -/
def remove (a b : AsyncStatus) : AsyncStatus where
  prepare := a.prepare && !b.prepare
  bindF := a.bindF && !b.bindF
  executeF := a.executeF && !b.executeF
  describeStatement := a.describeStatement && !b.describeStatement
  describeRow := a.describeRow && !b.describeRow
  copyIn := a.copyIn && !b.copyIn
  copyOut := a.copyOut && !b.copyOut
  ready := a.ready && !b.ready
  connect := a.connect && !b.connect
  beginF := a.beginF && !b.beginF

end AsyncStatus

/-- Source `crate::Status` (src/status.rs), the subset the receive loop writes. -/
inductive ExecStatus
  | badResponse
  | commandOk
  | copyBoth
  | copyIn
  | copyOut
  | emptyQuery
  | fatalError
  | nonFatalError
  | singleTuple
  | tuplesOk
deriving DecidableEq, Repr

/-- Modelled from the spec: the pure-protocol `Result` accumulator (spec §3:
row description, data rows, command-completion tag, notices, optional
error; plus the parameter description and status the receive loop in
src/connection/_async.rs stores). The struct itself is not under src/; its
fields and their writes are fixed by the loop code. -/
structure PQResult where
  cmdStatus : Option (List Nat) := none
  status : Option ExecStatus := none
  rows : List (List (Option (List Nat))) := []
  errorMessage : Option Notice := none
  notices : List Notice := []
  params : Option (List Nat) := none
  description : Option (List Attribute) := none
deriving DecidableEq, Repr

/-- Source `get_or_insert_default` (src/connection/_async.rs). -/
def getOrInsertDefault (r : Option PQResult) : PQResult :=
  match r with
  | some r => r
  | none => {}

/-- The mutable data `parse_input` works on: the two loop-local variables
(`async_status`, `result`) plus the `State` fields it writes through the
lock (src/connection/state.rs). -/
structure LoopState where
  async : AsyncStatus
  result : Option PQResult := none
  bePid : Int := 0
  beKey : Int := 0
  copy : Option CopyInOptions := none
  notifies : List Notify := []
  parameters : List (List Nat × List Nat) := []
deriving DecidableEq, Repr

/-- Source `HashMap::insert` on the server-parameter map, as an assoc-list update. -/
def assocInsert (k v : List Nat) (m : List (List Nat × List Nat)) :
    List (List Nat × List Nat) :=
  (k, v) :: m.filter (fun p => p.1 ≠ k)

/-- Source `"BEGIN"` as bytes. -/
def beginTag : List Nat := [66, 69, 71, 73, 78]
/-- Source `"COMMIT"` as bytes. -/
def commitTag : List Nat := [67, 79, 77, 77, 73, 84]
/-- Source `"COPY "` as bytes. -/
def copyTag : List Nat := [67, 79, 80, 89, 32]

/-- One arm of the receive-loop `match` (src/connection/_async.rs):
continue with an updated state, `break`, or the `_ => unreachable!()`
panic. -/
inductive StepResult
  | cont (s : LoopState)
  | brk (s : LoopState)
  | panic
deriving DecidableEq, Repr

/-- The body of the `while` in `Connection::parse_input`
(src/connection/_async.rs, lines 211–275): dispatch on one received
message. -/
def parseStep (singleRowMode : Bool) (s : LoopState) : Message → StepResult
  | .authentificationOk _ => .cont s
  | .backendKeyData pid key => .cont { s with bePid := pid, beKey := key }
  | .bindComplete => .cont { s with async := s.async.remove .bindFlag }
  | .commandComplete t =>
    let r := { getOrInsertDefault s.result with cmdStatus := some t }
    if beginTag.isPrefixOf t then
      .cont { s with result := some r, async := s.async.union .beginFlag }
    else if commitTag.isPrefixOf t then
      .cont { s with result := some r, async := s.async.remove .beginFlag }
    else if copyTag.isPrefixOf t then
      .brk { s with result := some r, async := s.async.remove .copyInFlag }
    else
      .cont { s with result := some r, async := s.async.remove .executeFlag }
  | .copyInResponse o =>
    .brk { s with
           copy := some o,
           result := some { getOrInsertDefault s.result with status := some .copyIn },
           async := .copyInFlag }
  | .copyOut _ =>
    .brk { s with
           result := some { getOrInsertDefault s.result with status := some .copyOut },
           async := .copyOutFlag }
  | .copyData _ => .cont s
  | .dataRow row =>
    let r := getOrInsertDefault s.result
    let r := { r with rows := r.rows ++ [row] }
    if singleRowMode then .brk { s with result := some r }
    else .cont { s with result := some r }
  | .emptyQuery => .cont s
  | .errorResponse e =>
    .cont { s with
            result := some { getOrInsertDefault s.result with errorMessage := some e },
            async := .idle }
  | .noticeResponse n =>
    let r := getOrInsertDefault s.result
    .cont { s with result := some { r with notices := r.notices ++ [n] } }
  | .notificationResponse n => .cont { s with notifies := s.notifies ++ [n] }
  | .parseComplete => .cont { s with async := s.async.remove .prepareFlag }
  | .parameterDescription ps =>
    .cont { s with
            result := some { getOrInsertDefault s.result with params := some ps },
            async := s.async.remove .describeStatementFlag }
  | .parameterStatus k v => .cont { s with parameters := assocInsert k v s.parameters }
  | .readyForQuery _ => .cont { s with async := s.async.remove .connectFlag }
  | .rowDescription d =>
    .cont { s with
            result := some { getOrInsertDefault s.result with description := some d },
            async := s.async.remove .describeRowFlag }
  | _ => .panic

/-- Outcome of `parse_input`: the returned `Ok(result)` together with the
state written back (`blocked` models running out of modelled input while
the loop would keep waiting on the socket). -/
inductive ParseOut
  | done (ret : Option PQResult) (st : LoopState)
  | blocked
  | panic
deriving DecidableEq, Repr

/-- The write-back after the loop (src/connection/_async.rs, lines
277–285): store `async_status`; clear the stored result when `IDLE`,
else store the accumulated one; return the accumulated result. -/
def loopFinish (s : LoopState) : ParseOut :=
  .done s.result { s with result := if s.async = .idle then none else s.result }

/-- The `while async_status != IDLE` receive loop of
`Connection::parse_input`, driven by a list of already-decoded incoming
messages. -/
def parseLoop (singleRowMode : Bool) : LoopState → List Message → ParseOut
  | s, [] => if s.async = .idle then loopFinish s else .blocked
  | s, m :: rest =>
    if s.async = .idle then loopFinish s
    else
      match parseStep singleRowMode s m with
      | .panic => .panic
      | .brk s1 => loopFinish s1
      | .cont s1 => parseLoop singleRowMode s1 rest

/-! ## Socket receive (src/connection/socket.rs) -/

/-- The error enum subset the modelled paths produce (src/error.rs). -/
inductive PqError
  | invalidState (msg : String)
  | invalidResponse (ty : Nat) (buf : List Nat)
  | io
  | rwLock
deriving DecidableEq, Repr

/-- Outcome of `Socket::receive`: `Ok(Some(msg))` with the bytes left in
the stream, `Ok(None)`, an `Err`, or a panic inside `Message::from`. -/
inductive RecvOut
  | okSome (m : Message) (rest : List Nat)
  | okNone (rest : List Nat)
  | err (e : PqError)
  | panic
deriving DecidableEq, Repr

/-- Source `Socket::receive_exact(len)` (src/connection/socket.rs): busy-retries
`read_exact` until `len` bytes arrived or a hard error. The stream is
modelled as every byte that will arrive before the peer closes; with fewer
than `len` bytes remaining, `read_exact` eventually reports
`UnexpectedEof` — an `Err(Io)`. On success the code always returns
`Ok(Some(buf))`; the `Ok(None)` its signature allows never occurs. -/
def receiveExact (len : Nat) (stream : List Nat) :
    Except PqError (Option (List Nat) × List Nat) :=
  if len ≤ stream.length then .ok (some (stream.take len), stream.drop len)
  else .error .io

/-- Source `Socket::receive` (src/connection/socket.rs): 5 header bytes (tag +
big-endian `i32` frame length), payload of `length - 4` bytes (the
`as usize` cast of a negative value asks for an enormous read), then
`Message::from`. -/
def socketReceive (stream : List Nat) : RecvOut :=
  match receiveExact 5 stream with
  | .error e => .err e
  | .ok (none, s1) => .okNone s1
  | .ok (some buf, s1) =>
    match buf with
    | ty :: b1 :: b2 :: b3 :: b4 :: _ =>
      let len : Int := i32ofNat (fromBE32 b1 b2 b3 b4 % 4294967296) - 4
      match receiveExact (usizeOfI32 len) s1 with
      | .error e => .err e
      | .ok (payload?, s2) =>
        match Message.fromTag ty (optBytes payload?) with
        | .ok m => .okSome m s2
        | .invalid t b => .err (.invalidResponse t b)
        | .panic => .panic
    | _ => .panic

/-! ## Send operations (src/connection/_async.rs)

The `Connection` internals `send_query_start`, `send(message, status)` and
`sync()` are not under src/ (only their callers are); they are modelled
from the spec below. -/

/-- The connection state the send path touches: the status bitset and the
messages written to the socket, in order. -/
structure SendState where
  async : AsyncStatus
  sent : List Message := []
deriving DecidableEq, Repr

/-- Modelled from the spec: `send_query_start` — "A new top-level command
may be started only when status is `IDLE`, `{COPY_IN}`, or `{COPY_OUT}`;
otherwise the attempt fails with an
`InvalidState(\x22another command is already in progress\x22)` error and no
message is sent" (spec §4.3). -/
def sendQueryStart (st : SendState) : Except PqError Unit :=
  if st.async = .idle ∨ st.async = .copyInFlag ∨ st.async = .copyOutFlag then
    .ok ()
  else
    .error (.invalidState "another command is already in progress")

/-- Modelled from the spec: `Connection::send(message, status)` — writes
the message to the socket and `insert`s the given flag(s) into the status
(spec §4.3: "Sending Parse/Bind/Describe/Execute/query messages inserts
the corresponding flag(s)"). -/
def connSend (m : Message) (flags : AsyncStatus) (st : SendState) :
    Except PqError SendState :=
  .ok { st with sent := st.sent ++ [m], async := st.async.union flags }

/-- Modelled from the spec: `Connection::sync()` — extended-protocol calls
additionally emit `Sync` (spec §4.4); no status flag is attached. -/
def connSync (st : SendState) : Except PqError SendState :=
  connSend .sync .idle st

/-- Source `Connection::send_query` (src/connection/_async.rs). -/
def sendQuery (command : List Nat) (st : SendState) : Except PqError SendState := do
  let _ ← sendQueryStart st
  connSend (.query command) .executeFlag st

/-- Source `Connection::send_query_prepared` (src/connection/_async.rs): Bind,
Describe (portal), Execute, Sync — with NO `send_query_start` gate. -/
def sendQueryPrepared (name : Option (List Nat)) (paramValues : List (Option (List Nat)))
    (paramFormats : List Format) (resultFormat : Format) (st : SendState) :
    Except PqError SendState := do
  let st1 ← connSend (.bind ⟨name, paramFormats, paramValues, resultFormat⟩) .bindFlag st
  let st2 ← connSend (.describePortal none) .describeRowFlag st1
  let st3 ← connSend .execute .executeFlag st2
  connSync st3

/-- Source `Connection::send_query_params` (src/connection/_async.rs). -/
def sendQueryParams (command : List Nat) (paramTypes : List Nat)
    (paramValues : List (Option (List Nat))) (paramFormats : List Format)
    (resultFormat : Format) (st : SendState) : Except PqError SendState := do
  let _ ← sendQueryStart st
  let st1 ← connSend (.parse ⟨none, command, paramTypes⟩) .prepareFlag st
  sendQueryPrepared none paramValues paramFormats resultFormat st1

/-- Source `Connection::send_prepare` (src/connection/_async.rs). -/
def sendPrepare (name : Option (List Nat)) (query : List Nat)
    (paramTypes : List Nat) (st : SendState) : Except PqError SendState := do
  let _ ← sendQueryStart st
  let st1 ← connSend (.parse ⟨name, query, paramTypes⟩) .prepareFlag st
  connSync st1

/-- Source `Connection::send_describe_prepared` (src/connection/_async.rs):
Describe (statement) with `DESCRIBE_STATEMENT | DESCRIBE_ROW`, then Sync —
with NO `send_query_start` gate. -/
def sendDescribePrepared (name : Option (List Nat)) (st : SendState) :
    Except PqError SendState := do
  let st1 ← connSend (.describeStatement name)
    (AsyncStatus.describeStatementFlag.union .describeRowFlag) st
  connSync st1

/-- Source `Connection::send_describe_portal` (src/connection/_async.rs):
Describe (portal) with `DESCRIBE_ROW`, then Sync — with NO
`send_query_start` gate. -/
def sendDescribePortal (name : Option (List Nat)) (st : SendState) :
    Except PqError SendState := do
  let st1 ← connSend (.describePortal name) .describeRowFlag st
  connSync st1

/-! ## Theorems -/

/-- A recognized tag's arm never produces `invalid`: the only non-`ok`
outcome after dispatch is the panic of the trailing-bytes assertion or of
a failed payload read. -/
theorem armThenAssertEmpty_not_invalid (r : Option (Message × List Nat)) :
    (armThenAssertEmpty r).isInvalid = false := by
  unfold armThenAssertEmpty
  match r with
  | none => rfl
  | some (m, rest) =>
    simp only
    split <;> rfl

set_option maxHeartbeats 1600000 in
/-- C10: `Message::from` is not total over recognized tags: tag `'1'`
(ParseComplete) with one trailing payload byte trips the final
`assert!(payload.is_empty())` — a panic, not an `InvalidResponse` error —
and an `InvalidResponse` error arises exactly on unrecognized tags. -/
theorem message_from_asserts_empty_payload :
    Message.fromTag 49 [0] = .panic ∧
    ∀ (ty : Nat) (buf : List Nat),
      (Message.fromTag ty buf).isInvalid = !(recognizedTag ty) := by
  constructor
  · rfl
  · intro ty buf
    unfold Message.fromTag
    by_cases h1 : ty = 49
    · subst h1; rw [if_pos rfl, armThenAssertEmpty_not_invalid]; decide
    rw [if_neg h1]
    by_cases h2 : ty = 50
    · subst h2; rw [if_pos rfl, armThenAssertEmpty_not_invalid]; decide
    rw [if_neg h2]
    by_cases h3 : ty = 51
    · subst h3; rw [if_pos rfl, armThenAssertEmpty_not_invalid]; decide
    rw [if_neg h3]
    by_cases h4 : ty = 65
    · subst h4; rw [if_pos rfl, armThenAssertEmpty_not_invalid]; decide
    rw [if_neg h4]
    by_cases h5 : ty = 67
    · subst h5; rw [if_pos rfl, armThenAssertEmpty_not_invalid]; decide
    rw [if_neg h5]
    by_cases h6 : ty = 100
    · subst h6; rw [if_pos rfl, armThenAssertEmpty_not_invalid]; decide
    rw [if_neg h6]
    by_cases h7 : ty = 68
    · subst h7; rw [if_pos rfl, armThenAssertEmpty_not_invalid]; decide
    rw [if_neg h7]
    by_cases h8 : ty = 69
    · subst h8; rw [if_pos rfl, armThenAssertEmpty_not_invalid]; decide
    rw [if_neg h8]
    by_cases h9 : ty = 71
    · subst h9; rw [if_pos rfl, armThenAssertEmpty_not_invalid]; decide
    rw [if_neg h9]
    by_cases h10 : ty = 72
    · subst h10; rw [if_pos rfl, armThenAssertEmpty_not_invalid]; decide
    rw [if_neg h10]
    by_cases h11 : ty = 73
    · subst h11; rw [if_pos rfl, armThenAssertEmpty_not_invalid]; decide
    rw [if_neg h11]
    by_cases h12 : ty = 75
    · subst h12; rw [if_pos rfl, armThenAssertEmpty_not_invalid]; decide
    rw [if_neg h12]
    by_cases h13 : ty = 78
    · subst h13; rw [if_pos rfl, armThenAssertEmpty_not_invalid]; decide
    rw [if_neg h13]
    by_cases h14 : ty = 82
    · subst h14; rw [if_pos rfl, armThenAssertEmpty_not_invalid]; decide
    rw [if_neg h14]
    by_cases h15 : ty = 83
    · subst h15; rw [if_pos rfl, armThenAssertEmpty_not_invalid]; decide
    rw [if_neg h15]
    by_cases h16 : ty = 116
    · subst h16; rw [if_pos rfl, armThenAssertEmpty_not_invalid]; decide
    rw [if_neg h16]
    by_cases h17 : ty = 84
    · subst h17; rw [if_pos rfl, armThenAssertEmpty_not_invalid]; decide
    rw [if_neg h17]
    by_cases h18 : ty = 90
    · subst h18; rw [if_pos rfl, armThenAssertEmpty_not_invalid]; decide
    rw [if_neg h18]
    simp only [DecodeResult.isInvalid]
    simp [recognizedTag, h1, h2, h3, h4, h5, h6, h7, h8, h9, h10, h11, h12,
          h13, h14, h15, h16, h17, h18]

/-- C1 counterexample: the frontend message `Query("a")` does not survive
the decode-of-encode round trip. Its frame is tag `'Q'` (81), length 6,
payload `"a\0"`; `Message::from('Q', ..)` has no `'Q'` arm and returns
`Err(InvalidResponse)` instead of the original message. -/
theorem query_roundtrip_fails :
    Message.toBytes none (.query [97]) = some [81, 0, 0, 0, 6, 97, 0] ∧
    Message.fromTag 81 [97, 0] = .invalid 81 [97, 0] := by
  constructor
  · rfl
  · rfl

/-- The `DataRow` field loop needs at least 4 bytes (the `i32` length
read) per field; a shorter buffer makes some `payload.eat` overrun — a
panic. -/
theorem readDataFields_short (k : Nat) :
    ∀ bs : List Nat, bs.length < 4 * k → readDataFields k bs = none := by
  induction k with
  | zero =>
    intro bs h
    exact absurd h (by omega)
  | succ k ih =>
    intro bs h
    rcases bs with _ | ⟨b0, bs⟩
    · rfl
    rcases bs with _ | ⟨b1, bs⟩
    · rfl
    rcases bs with _ | ⟨b2, bs⟩
    · rfl
    rcases bs with _ | ⟨b3, r⟩
    · rfl
    simp only [readDataFields, nextI32]
    split_ifs with hv
    · unfold eatBytes
      split_ifs with he
      · have hx : readDataFields k
            (List.drop (i32ofNat (fromBE32 b0 b1 b2 b3 % 4294967296)).toNat r) =
            none := by
          apply ih
          simp only [List.length_cons, List.length_drop] at h ⊢
          omega
        simp only [hx]
      · rfl
    · have hx : readDataFields k r = none := by
        apply ih
        simp only [List.length_cons] at h ⊢
        omega
      simp only [hx]

/-- Decoding a Describe frame under tag `'D'` panics: `DataRow::from`
reads the `'S'`/`'P'` sub-byte (83/80) as the high byte of the field
count, yielding 20480+ fields, and over-reads any name shorter than
4 bytes per field. -/
theorem describe_decode_panics (p : Nat) (nb : List Nat)
    (hp : p = 83 ∨ p = 80) (hb : ∀ b ∈ nb, b < 256) (hl : nb.length < 81920) :
    Message.fromTag 68 (p :: (nb ++ [0])) = .panic := by
  have hdr : decodeDataRow (p :: (nb ++ [0])) = none := by
    rcases nb with _ | ⟨c, nb2⟩
    · simp only [decodeDataRow, nextI16, List.nil_append]
      have hk : (i16ofNat (fromBE16 p 0 % 65536)).toNat = 256 * p := by
        rcases hp with hp | hp <;> subst hp <;>
          (unfold i16ofNat fromBE16; split_ifs with hcond <;> omega)
      rw [hk]
      apply readDataFields_short
      rcases hp with hp | hp <;> subst hp <;> simp
    · have hc : c < 256 := hb c (by simp)
      simp only [decodeDataRow, nextI16, List.cons_append]
      have hk : (i16ofNat (fromBE16 p c % 65536)).toNat = 256 * p + c := by
        rcases hp with hp | hp <;> subst hp <;>
          (unfold i16ofNat fromBE16; split_ifs with hcond <;> omega)
      rw [hk]
      apply readDataFields_short
      simp only [List.length_append, List.length_cons, List.length_nil] at hl ⊢
      rcases hp with hp | hp <;> subst hp <;> omega
  simp [Message.fromTag, hdr, armThenAssertEmpty]

/-- C1 (amended): of the listed frontend messages only `CopyData` survives
the round trip — its payload is the raw data and the `'d'` arm restores
it. `Query`, `Parse`, `Bind`, `CopyDone`, `CopyFail` encode to the tags
`'Q'`, `'P'`, `'B'`, `'c'`, `'f'`, none of which `Message::from`
recognizes, so decoding any such frame yields `Err(InvalidResponse)`.
Decoding a Describe frame (statement or portal, any name shorter than
81920 bytes) panics — `DataRow::from` misreads the sub-byte as a huge
field count and over-reads; decoding the Execute frame panics on the
final payload-empty assertion after `Notice::from` consumes only the
leading portal NUL; the Sync frame decodes as `ParameterStatus("", "")`,
a different message. -/
theorem frontend_roundtrip_copydata_only :
    (∀ s : List Nat,
      Message.tagByte (.copyData s) = some 100 ∧
      Message.payloadBytes none (.copyData s) = some s ∧
      Message.fromTag 100 s = .ok (.copyData s)) ∧
    (∀ q : List Nat, Message.tagByte (.query q) = some 81) ∧
    (∀ o : ParseOptions, Message.tagByte (.parse o) = some 80) ∧
    (∀ o : BindOptions, Message.tagByte (.bind o) = some 66) ∧
    Message.tagByte .copyDone = some 99 ∧
    (∀ s : List Nat, Message.tagByte (.copyFail s) = some 102) ∧
    (∀ buf : List Nat,
      Message.fromTag 81 buf = .invalid 81 buf ∧
      Message.fromTag 80 buf = .invalid 80 buf ∧
      Message.fromTag 66 buf = .invalid 66 buf ∧
      Message.fromTag 99 buf = .invalid 99 buf ∧
      Message.fromTag 102 buf = .invalid 102 buf) ∧
    (∀ name : Option (List Nat),
      Message.tagByte (.describeStatement name) = some 68 ∧
      Message.payloadBytes none (.describeStatement name) =
        some (83 :: (optBytes name ++ [0])) ∧
      Message.tagByte (.describePortal name) = some 68 ∧
      Message.payloadBytes none (.describePortal name) =
        some (80 :: (optBytes name ++ [0]))) ∧
    (∀ name : Option (List Nat),
      (∀ b ∈ optBytes name, b < 256) → (optBytes name).length < 81920 →
      Message.fromTag 68 (83 :: (optBytes name ++ [0])) = .panic ∧
      Message.fromTag 68 (80 :: (optBytes name ++ [0])) = .panic) ∧
    (Message.tagByte .execute = some 69 ∧
     Message.payloadBytes none .execute = some [0, 0, 0, 0, 0] ∧
     Message.fromTag 69 [0, 0, 0, 0, 0] = .panic) ∧
    (Message.tagByte .sync = some 83 ∧
     Message.payloadBytes none .sync = some [] ∧
     Message.fromTag 83 [] = .ok (.parameterStatus [] [])) := by
  refine ⟨fun s => ⟨rfl, rfl, rfl⟩, fun q => rfl, fun o => rfl, fun o => rfl,
          rfl, fun s => rfl, fun buf => ⟨rfl, rfl, rfl, rfl, rfl⟩,
          fun name => ⟨rfl, rfl, rfl, rfl⟩,
          fun name hb hl =>
            ⟨describe_decode_panics 83 (optBytes name) (Or.inl rfl) hb hl,
             describe_decode_panics 80 (optBytes name) (Or.inr rfl) hb hl⟩,
          ⟨rfl, rfl, rfl⟩, ⟨rfl, rfl, rfl⟩⟩

/-- C1 witness: the frame of `CopyData("hi")` decodes back to itself, and
the unnamed Describe statement/portal frames (`[83, 0]` / `[80, 0]`)
panic when decoded under tag `'D'`. -/
theorem frontend_roundtrip_copydata_only_witness :
    Message.fromTag 100 [104, 105] = .ok (.copyData [104, 105]) ∧
    Message.fromTag 68 [83, 0] = .panic ∧
    Message.fromTag 68 [80, 0] = .panic := by
  have hc := (frontend_roundtrip_copydata_only.1 [104, 105]).2.2
  have hd := frontend_roundtrip_copydata_only.2.2.2.2.2.2.2.2.1 none
    (by simp [optBytes]) (by decide)
  exact ⟨hc, by simpa [optBytes] using hd.1, by simpa [optBytes] using hd.2⟩

/-- C2: whenever the receive loop processes an `ErrorResponse`, the status
becomes exactly `IDLE` no matter which flags were outstanding, the error
notice is recorded into the pending `Result`, and the loop exits with that
`Result` (the remaining input is not consumed); the stored result is
cleared because the status is `IDLE`. -/
theorem error_response_aborts_to_idle (srm : Bool) (s : LoopState) (e : Notice)
    (rest : List Message) (h : s.async ≠ .idle) :
    parseLoop srm s (.errorResponse e :: rest) =
      .done (some { getOrInsertDefault s.result with errorMessage := some e })
            { s with async := .idle,
                     result := none } := by
  cases rest <;>
    simp [parseLoop, parseStep, loopFinish, h]

/-- C2 witness: a connection waiting on `EXECUTE` that receives an
`ErrorResponse` returns the error-carrying result and stores an `IDLE`
status with no pending result. -/
theorem error_response_aborts_to_idle_witness :
    parseLoop false { async := AsyncStatus.executeFlag } [.errorResponse [(83, [69])]] =
      .done (some { errorMessage := some [(83, [69])] })
            { async := .idle, result := none } := by
  have h := error_response_aborts_to_idle false { async := AsyncStatus.executeFlag }
    [(83, [69])] [] (by decide)
  simpa using h

/-- C5: `CopyInResponse` sets the status to exactly `{COPY_IN}` (all other
outstanding flags are discarded), records `CopyIn` into the in-flight
`Result`, stores the copy options, and breaks the loop (the remaining
input is untouched and the accumulated result is both returned and
stored); symmetrically `CopyOutResponse` sets exactly `{COPY_OUT}` and
records `CopyOut`. -/
theorem copy_responses_set_exact_status (srm srm2 : Bool) (s : LoopState)
    (o : CopyInOptions) (o2 : CopyOutOptions) (rest rest2 : List Message)
    (h : s.async ≠ .idle) :
    parseLoop srm s (.copyInResponse o :: rest) =
      .done (some { getOrInsertDefault s.result with status := some .copyIn })
            { s with copy := some o,
                     result := some { getOrInsertDefault s.result with status := some .copyIn },
                     async := .copyInFlag } ∧
    parseLoop srm2 s (.copyOut o2 :: rest2) =
      .done (some { getOrInsertDefault s.result with status := some .copyOut })
            { s with result := some { getOrInsertDefault s.result with status := some .copyOut },
                     async := .copyOutFlag } := by
  have h1 : ¬(AsyncStatus.copyInFlag = AsyncStatus.idle) := by decide
  have h2 : ¬(AsyncStatus.copyOutFlag = AsyncStatus.idle) := by decide
  constructor <;>
    simp [parseLoop, parseStep, loopFinish, h, h1, h2]

/-- C5 witness: from an `EXECUTE | DESCRIBE_ROW` state, `CopyInResponse`
leaves exactly `{COPY_IN}` and `CopyOutResponse` exactly `{COPY_OUT}`,
each recording its status and breaking with further input pending. -/
theorem copy_responses_set_exact_status_witness :
    parseLoop false { async := { executeF := true, describeRow := true } }
        [.copyInResponse ⟨0, []⟩, .sync] =
      .done (some { status := some .copyIn })
            { async := .copyInFlag,
              copy := some ⟨0, []⟩,
              result := some { status := some .copyIn } } ∧
    parseLoop false { async := { executeF := true, describeRow := true } }
        [.copyOut ⟨.text, []⟩, .sync] =
      .done (some { status := some .copyOut })
            { async := .copyOutFlag,
              result := some { status := some .copyOut } } := by
  have h := copy_responses_set_exact_status false false
    { async := { executeF := true, describeRow := true } } ⟨0, []⟩ ⟨.text, []⟩
    [.sync] [.sync] (by decide)
  exact ⟨by simpa using h.1, by simpa using h.2⟩

/-- One unfolding of the receive loop when the step continues. -/
theorem parseLoop_cons_cont (srm : Bool) (s s1 : LoopState) (m : Message)
    (rest : List Message) (h : s.async ≠ .idle)
    (hstep : parseStep srm s m = .cont s1) :
    parseLoop srm s (m :: rest) = parseLoop srm s1 rest := by
  cases rest <;> simp [parseLoop, h, hstep]

/-- One unfolding of the receive loop when the step breaks. -/
theorem parseLoop_cons_brk (srm : Bool) (s s1 : LoopState) (m : Message)
    (rest : List Message) (h : s.async ≠ .idle)
    (hstep : parseStep srm s m = .brk s1) :
    parseLoop srm s (m :: rest) = loopFinish s1 := by
  simp [parseLoop, h, hstep]

/-- C4 counterexample: a `CommandComplete` with tag `"BEGIN"` arriving
while `EXECUTE` is outstanding leaves `EXECUTE` set (the `else if` chain
only inserts `BEGIN`), whereas the claim predicts `EXECUTE` is cleared in
addition to setting `BEGIN`. -/
theorem commandcomplete_begin_keeps_execute :
    parseStep false { async := AsyncStatus.executeFlag } (.commandComplete beginTag) =
      .cont { async := { executeF := true, beginF := true },
              result := some { cmdStatus := some beginTag } } ∧
    ({ executeF := true, beginF := true } : AsyncStatus).executeF = true := by
  constructor
  · rfl
  · rfl

/-- C4 (amended): on `CommandComplete` with tag `t` the completion tag is
always recorded; then exactly one branch of the `else if` chain runs: a
tag starting with `"BEGIN"` sets the `BEGIN` flag INSTEAD of clearing
`EXECUTE`; a tag starting with `"COMMIT"` clears `BEGIN` instead of
clearing `EXECUTE`; a tag starting with `"COPY "` clears `COPY_IN` and
breaks the loop immediately; any other tag clears `EXECUTE` and the loop
continues. -/
theorem commandcomplete_transitions (srm : Bool) (s : LoopState) (t : List Nat)
    (rest : List Message) (h : s.async ≠ .idle) :
    (beginTag.isPrefixOf t = true →
      parseLoop srm s (.commandComplete t :: rest) =
        parseLoop srm
          { s with result := some { getOrInsertDefault s.result with cmdStatus := some t },
                   async := s.async.union .beginFlag } rest) ∧
    (beginTag.isPrefixOf t = false → commitTag.isPrefixOf t = true →
      parseLoop srm s (.commandComplete t :: rest) =
        parseLoop srm
          { s with result := some { getOrInsertDefault s.result with cmdStatus := some t },
                   async := s.async.remove .beginFlag } rest) ∧
    (beginTag.isPrefixOf t = false → commitTag.isPrefixOf t = false →
        copyTag.isPrefixOf t = true →
      parseLoop srm s (.commandComplete t :: rest) =
        loopFinish
          { s with result := some { getOrInsertDefault s.result with cmdStatus := some t },
                   async := s.async.remove .copyInFlag }) ∧
    (beginTag.isPrefixOf t = false → commitTag.isPrefixOf t = false →
        copyTag.isPrefixOf t = false →
      parseLoop srm s (.commandComplete t :: rest) =
        parseLoop srm
          { s with result := some { getOrInsertDefault s.result with cmdStatus := some t },
                   async := s.async.remove .executeFlag } rest) := by
  refine ⟨fun hb => ?_, fun hb hc => ?_, fun hb hc hk => ?_, fun hb hc hk => ?_⟩
  · exact parseLoop_cons_cont srm s _ _ rest h (by simp [parseStep, hb])
  · exact parseLoop_cons_cont srm s _ _ rest h (by simp [parseStep, hb, hc])
  · exact parseLoop_cons_brk srm s _ _ rest h (by simp [parseStep, hb, hc, hk])
  · exact parseLoop_cons_cont srm s _ _ rest h (by simp [parseStep, hb, hc, hk])

/-- C4 witness: the four tag shapes at concrete inputs — `"BEGIN"` sets
`BEGIN` keeping `EXECUTE`, `"COMMIT"` clears `BEGIN`, `"COPY 5"` clears
`COPY_IN` and ends the loop, `"SELECT 1"` clears `EXECUTE`. -/
theorem commandcomplete_transitions_witness :
    parseLoop false { async := AsyncStatus.executeFlag } [.commandComplete beginTag] =
      parseLoop false { async := { executeF := true, beginF := true },
                        result := some { cmdStatus := some beginTag } } [] ∧
    parseLoop false { async := { executeF := true, beginF := true } }
        [.commandComplete commitTag] =
      parseLoop false { async := AsyncStatus.executeFlag,
                        result := some { cmdStatus := some commitTag } } [] ∧
    parseLoop false { async := AsyncStatus.copyInFlag }
        [.commandComplete (copyTag ++ [53])] =
      loopFinish { async := AsyncStatus.idle,
                   result := some { cmdStatus := some (copyTag ++ [53]) } } ∧
    parseLoop false { async := AsyncStatus.executeFlag }
        [.commandComplete [83, 69, 76]] =
      parseLoop false { async := AsyncStatus.idle,
                        result := some { cmdStatus := some [83, 69, 76] } } [] := by
  refine ⟨?_, ?_, ?_, ?_⟩
  · have h := (commandcomplete_transitions false { async := AsyncStatus.executeFlag }
      beginTag [] (by decide)).1 (by decide)
    simpa using h
  · have h := (commandcomplete_transitions false
      { async := { executeF := true, beginF := true } }
      commitTag [] (by decide)).2.1 (by decide) (by decide)
    simpa using h
  · have h := (commandcomplete_transitions false { async := AsyncStatus.copyInFlag }
      (copyTag ++ [53]) [] (by decide)).2.2.1 (by decide) (by decide) (by decide)
    simpa using h
  · have h := (commandcomplete_transitions false { async := AsyncStatus.executeFlag }
      [83, 69, 76] [] (by decide)).2.2.2 (by decide) (by decide) (by decide)
    simpa using h

/-- C3 counterexample: `send_describe_portal` never calls
`send_query_start`; called while `EXECUTE` is outstanding (a state the
claim says must be rejected) it succeeds and writes Describe + Sync to
the socket. -/
theorem send_describe_portal_not_gated :
    sendDescribePortal none { async := AsyncStatus.executeFlag } =
      .ok { async := { executeF := true, describeRow := true },
            sent := [.describePortal none, .sync] } := by
  rfl

/-- C3 (amended): only `send_query`, `send_query_params` and
`send_prepare` are gated by `send_query_start`; when the status is not
`IDLE`, `{COPY_IN}` or `{COPY_OUT}` each of the three fails with
`InvalidState("another command is already in progress")` before writing
anything (`send_query_prepared`, `send_describe_prepared`,
`send_describe_portal` carry no such gate and send regardless). -/
theorem send_gate_rejects_busy (st : SendState) (cmd q : List Nat)
    (name : Option (List Nat)) (tys : List Nat)
    (values : List (Option (List Nat))) (fmts : List Format) (rf : Format)
    (h : ¬(st.async = .idle ∨ st.async = .copyInFlag ∨ st.async = .copyOutFlag)) :
    sendQuery cmd st =
      .error (.invalidState "another command is already in progress") ∧
    sendQueryParams cmd tys values fmts rf st =
      .error (.invalidState "another command is already in progress") ∧
    sendPrepare name q tys st =
      .error (.invalidState "another command is already in progress") := by
  refine ⟨?_, ?_, ?_⟩ <;>
    (simp [sendQuery, sendQueryParams, sendPrepare, sendQueryStart, h]; rfl)

/-- C3 witness: with `PREPARE` outstanding all three gated send calls are
rejected with the `InvalidState` error. -/
theorem send_gate_rejects_busy_witness :
    sendQuery [65] { async := AsyncStatus.prepareFlag } =
      .error (.invalidState "another command is already in progress") ∧
    sendQueryParams [65] [] [] [] .text { async := AsyncStatus.prepareFlag } =
      .error (.invalidState "another command is already in progress") ∧
    sendPrepare none [65] [] { async := AsyncStatus.prepareFlag } =
      .error (.invalidState "another command is already in progress") := by
  exact send_gate_rejects_busy { async := AsyncStatus.prepareFlag } [65] [65]
    none [] [] [] .text (by decide)

/-- Consuming exactly the first block of an appended buffer. -/
theorem eatBytes_append (l1 l2 : List Nat) :
    eatBytes l1.length (l1 ++ l2) = some (l1, l2) := by
  unfold eatBytes
  rw [if_pos (by simp)]
  rw [List.take_left, List.drop_left]

/-- C9: in the `DataRow` field loop, a wire length of `-1` decodes to
`None` with no further bytes consumed; a wire length of `0` decodes to
`Some` of the empty buffer; a positive wire length `n` decodes to `Some`
of exactly the next `n` payload bytes. -/
theorem datarow_field_decoding :
    (∀ (k : Nat) (rest : List Nat),
      readDataFields (k + 1) (i32be (-1) ++ rest) =
        (readDataFields k rest).map fun x => (none :: x.1, x.2)) ∧
    (∀ (k : Nat) (rest : List Nat),
      readDataFields (k + 1) (i32be 0 ++ rest) =
        (readDataFields k rest).map fun x => (some [] :: x.1, x.2)) ∧
    (∀ (k : Nat) (data rest : List Nat) (n : Int),
      0 < n → n < 2147483648 → (data.length : Int) = n →
      readDataFields (k + 1) (i32be n ++ (data ++ rest)) =
        (readDataFields k rest).map fun x => (some data :: x.1, x.2)) := by
  refine ⟨fun k rest => ?_, fun k rest => ?_, fun k data rest n hpos hlt hlen => ?_⟩
  · simp only [readDataFields]
    rw [nextI32_i32be (-1) rest (by norm_num) (by norm_num)]
    simp only [show ¬((0 : Int) ≤ -1) by norm_num, if_neg, not_false_iff]
    cases hr : readDataFields k rest <;> simp [hr]
  · simp only [readDataFields]
    rw [nextI32_i32be 0 rest (by norm_num) (by norm_num)]
    simp only [le_refl, if_pos]
    have he : eatBytes (0 : Int).toNat rest = some ([], rest) := by
      simpa using eatBytes_append [] rest
    rw [he]
    cases hr : readDataFields k rest <;> simp [hr]
  · simp only [readDataFields]
    rw [nextI32_i32be n (data ++ rest) (by omega) hlt]
    have h0 : (0 : Int) ≤ n := le_of_lt hpos
    have he : eatBytes n.toNat (data ++ rest) = some (data, rest) := by
      have hn : n.toNat = data.length := by omega
      rw [hn]
      exact eatBytes_append data rest
    simp only [h0, if_true, he]
    cases hr : readDataFields k rest <;> simp [hr]

/-- C9 witness: one field of each kind — wire length `-1`, `0`, and `2`
with bytes `[7, 8]` — decoded from a three-field row body. -/
theorem datarow_field_decoding_witness :
    readDataFields 3 (i32be (-1) ++ (i32be 0 ++ (i32be 2 ++ [7, 8]))) =
      some ([none, some [], some [7, 8]], []) := by
  have h1 := datarow_field_decoding.1 2 (i32be 0 ++ (i32be 2 ++ [7, 8]))
  have h2 := datarow_field_decoding.2.1 1 (i32be 2 ++ [7, 8])
  have h3 := datarow_field_decoding.2.2 0 [7, 8] [] 2 (by norm_num) (by norm_num)
    (by norm_num)
  simp only [List.append_nil] at h3
  rw [h1, h2, h3]
  rfl

/-- Claim-side definition (C6, from the spec's words, for comparison with
the source encoder): the wire chunk of one Bind parameter — `-1` and no
bytes for `None`; full length and all bytes for a binary-format buffer;
length minus one and the first length-minus-one bytes for every other
buffer. -/
def bindParamChunkSpec (fmt : Option Format) (p : Option (List Nat)) : List Nat :=
  match p with
  | none => i32be (-1)
  | some buf =>
    if fmt = some .binary then i32be (buf.length : Int) ++ buf
    else i32be ((buf.length - 1 : Nat) : Int) ++ buf.take (buf.length - 1)

/-- Claim-side definition (C6): the concatenated parameter chunks, each
paired with the format entry at its position. -/
def bindChunksSpec (fmts : List Format) (n : Nat) :
    List (Option (List Nat)) → List Nat
  | [] => []
  | p :: rest => bindParamChunkSpec (fmts.get? n) p ++ bindChunksSpec fmts (n + 1) rest

/-- The source loop produces exactly the claim-side chunks as long as no
non-binary parameter buffer is empty. -/
theorem bindParamLoop_eq_spec (fmts : List Format) :
    ∀ (values : List (Option (List Nat))) (n : Nat),
      (∀ k p, values.get? k = some (some p) → fmts.get? (n + k) ≠ some .binary →
        p ≠ []) →
      bindParamLoop fmts n values = some (bindChunksSpec fmts n values) := by
  intro values
  induction values with
  | nil => intro n _; rfl
  | cons p rest ih =>
    intro n hne
    have hrest : bindParamLoop fmts (n + 1) rest =
        some (bindChunksSpec fmts (n + 1) rest) := by
      apply ih
      intro k q hk hf
      exact hne (k + 1) q (by simpa using hk) (by rw [show n + (k + 1) = n + 1 + k by omega]; exact hf)
    match p with
    | none =>
      simp [bindParamLoop, bindChunksSpec, bindParamChunkSpec, hrest]
    | some param =>
      by_cases hb : fmts.get? n = some .binary
      · have hb2 : fmts[n]? = some Format.binary := by
          simpa [List.get?_eq_getElem?] using hb
        simp [bindParamLoop, bindChunksSpec, bindParamChunkSpec, hrest, hb2]
      · have hb2 : ¬(fmts[n]? = some Format.binary) := by
          simpa [List.get?_eq_getElem?] using hb
        have hp : param ≠ [] := hne 0 param (by simp) (by simpa using hb)
        match param, hp with
        | b :: bs, _ =>
          simp [bindParamLoop, bindChunksSpec, bindParamChunkSpec, hrest, hb2]

/-- C6 counterexample: an empty buffer supplied as a non-binary parameter
does not get encoded at all — `param.len() - 1` underflows and the slice
`param[..len]` panics — whereas the claim prescribes an encoding for
every `Some(buffer)` parameter. -/
theorem bind_empty_text_param_panics :
    Message.payloadBytes none (.bind ⟨none, [], [some []], .text⟩) = none := by
  rfl

/-- C6 (amended): provided every non-binary `Some` parameter buffer is
nonempty, the Bind payload carries, per parameter: `-1` with no bytes for
`None`; the full length and bytes when the format entry at that position
is `Binary`; the length minus one and only the first length-minus-one
bytes (one trailing byte stripped) for every other buffer — an empty
non-binary buffer instead panics the encoder. -/
theorem bind_parameter_encoding (name : Option (List Nat)) (fmts : List Format)
    (values : List (Option (List Nat))) (rf : Format)
    (hne : ∀ k p, values.get? k = some (some p) → fmts.get? k ≠ some .binary →
      p ≠ []) :
    Message.payloadBytes none (.bind ⟨name, fmts, values, rf⟩) =
      some ([0] ++ optBytes name ++ [0] ++
            i16be (fmts.length : Int) ++
            (fmts.map fun f => i16be f.toI32).flatten ++
            i16be (values.length : Int) ++
            bindChunksSpec fmts 0 values ++
            i16be 1 ++ i16be rf.toI32) := by
  have hl := bindParamLoop_eq_spec fmts values 0 (by simpa using hne)
  simp [Message.payloadBytes, hl]

/-- C6 witness: three parameters — NULL, binary `[1, 2]`, and text
`"x\0"` (bytes `[120, 0]`) — encode as `-1`; length 2 with both bytes;
and length 1 with the single byte `x` (the trailing byte stripped). -/
theorem bind_parameter_encoding_witness :
    Message.payloadBytes none
        (.bind ⟨none, [.text, .binary, .text], [none, some [1, 2], some [120, 0]],
                .text⟩) =
      some ([0] ++ [] ++ [0] ++
            i16be 3 ++ [i16be 0, i16be 1, i16be 0].flatten ++
            i16be 3 ++
            (i32be (-1) ++ (i32be 2 ++ [1, 2]) ++ (i32be 1 ++ [120])) ++
            i16be 1 ++ i16be 0) := by
  have h := bind_parameter_encoding none [.text, .binary, .text]
    [none, some [1, 2], some [120, 0]] .text ?_
  · rw [h]
    rfl
  · intro k p hk hf
    match k with
    | 0 => simp at hk
    | 1 => exact absurd rfl hf
    | 2 =>
      simp at hk
      simp [← hk]
    | m + 3 => simp at hk

/-- C7: the encoded Startup message has no tag byte — the frame is the
big-endian `i32` total length (`payload + 4`), the protocol-version bytes
`0x00030000`, exactly two NUL-terminated key/value pairs (`user` and
`database`, valued from the Config; no other Config field is sent), and a
terminating single NUL. The two-entry `HashMap` is modelled in insertion
order; the claim fixes the pair set, not an order. -/
theorem startup_message_encoding (c : Config) (u d : List Nat)
    (env : Option (List Nat)) (hu : c.user = some u) (hd : c.dbname = some d) :
    Message.toBytes env (.startup c) =
      some (i32be (((25 : Nat) + u.length + d.length : Nat) : Int) ++
            ([0, 3, 0, 0] ++
             (userKey ++ [0] ++ u ++ [0] ++ (databaseKey ++ [0] ++ d ++ [0])) ++
             [0])) := by
  simp only [Message.toBytes, Message.payloadBytes, configPairs, Config.userValue,
             Config.databaseValue, hu, hd, startupPairs, Message.tagByte, userKey,
             databaseKey]
  simp only [List.append_assoc, List.cons_append, List.nil_append]
  congr 3
  simp only [List.length_cons, List.length_append, List.length_cons,
             List.length_nil]
  push_cast
  ring

/-- C7 witness: a Config with user `"u"` (byte 117) and dbname `"d"`
(byte 100) produces the 27-byte-length frame with the two pairs and the
final NUL. -/
theorem startup_message_encoding_witness :
    Message.toBytes none (.startup { user := some [117], dbname := some [100] }) =
      some (i32be 27 ++
            ([0, 3, 0, 0] ++
             (userKey ++ [0] ++ [117] ++ [0] ++ (databaseKey ++ [0] ++ [100] ++ [0])) ++
             [0])) := by
  have h := startup_message_encoding { user := some [117], dbname := some [100] }
    [117] [100] none rfl rfl
  simpa using h

/-- Predicate: `Socket::receive` returned `Ok(None)`. -/
def RecvOut.isOkNone : RecvOut → Bool
  | .okNone _ => true
  | _ => false

/-- Source `receive_exact` either hands back exactly the requested prefix
of the stream or fails with an I/O error; it never yields `Ok(None)`. -/
theorem receiveExact_cases (len : Nat) (stream : List Nat) :
    receiveExact len stream = .ok (some (stream.take len), stream.drop len) ∨
    receiveExact len stream = .error .io := by
  unfold receiveExact
  split_ifs with h
  · left; rfl
  · right; rfl

/-- Reading the 5 header bytes from a stream that has them. -/
theorem receiveExact_header (t a b c d : Nat) (r : List Nat) :
    receiveExact 5 (t :: a :: b :: c :: d :: r) = .ok (some [t, a, b, c, d], r) := by
  unfold receiveExact
  rw [if_pos (by simp only [List.length_cons]; omega)]
  simp

/-- C8 counterexample: a cleanly closed stream with no partial frame
pending (the empty stream) makes `receive` fail with an `Io` error
(`read_exact` reports `UnexpectedEof`), not return `None` as the claim
states. -/
theorem socket_receive_eof_io : socketReceive [] = .err .io := by
  rfl

/-- C8 (amended): `receive` reads exactly 5 header bytes (tag plus
big-endian `i32` length), computes the payload length as length minus 4,
reads exactly that many further bytes, and decodes them via
`Message::from`; it NEVER returns `None` — `receive_exact` busy-retries
until the bytes arrive or fails hard, so a cleanly closed stream surfaces
as an `Io` error. -/
theorem socket_receive_framing :
    (∀ stream : List Nat, (socketReceive stream).isOkNone = false) ∧
    (∀ (tag : Nat) (payload rest : List Nat),
      payload.length + 4 < 2147483648 →
      socketReceive (tag :: (i32be ((payload.length : Int) + 4) ++ (payload ++ rest))) =
        match Message.fromTag tag payload with
        | .ok m => .okSome m rest
        | .invalid t b => .err (.invalidResponse t b)
        | .panic => .panic) := by
  constructor
  · intro stream
    rcases stream with _ | ⟨t, stream⟩
    · rfl
    rcases stream with _ | ⟨a, stream⟩
    · rfl
    rcases stream with _ | ⟨b, stream⟩
    · rfl
    rcases stream with _ | ⟨c, stream⟩
    · rfl
    rcases stream with _ | ⟨d, rest⟩
    · rfl
    simp only [socketReceive]
    simp only [receiveExact_header]
    rcases h2p : receiveExact
        (usizeOfI32 (i32ofNat (fromBE32 a b c d % 4294967296) - 4)) rest with
      e | pr
    · simp [h2p, RecvOut.isOkNone]
    · obtain ⟨p?, s2⟩ := pr
      cases h3 : Message.fromTag t (optBytes p?) <;>
        simp [h2p, h3, RecvOut.isOkNone]
  · intro tag payload rest hlen
    simp only [socketReceive, i32be_eq_cons, List.cons_append, List.nil_append]
    simp only [receiveExact_header]
    have hu : u32ofInt ((payload.length : Int) + 4) = payload.length + 4 := by
      unfold u32ofInt
      omega
    rw [hu, be32_fromBE32 (payload.length + 4) (by omega),
        Nat.mod_eq_of_lt (by omega)]
    have hi : i32ofNat (payload.length + 4) = (payload.length : Int) + 4 := by
      unfold i32ofNat
      omega
    rw [hi]
    have hus : usizeOfI32 ((payload.length : Int) + 4 - 4) = payload.length := by
      unfold usizeOfI32
      omega
    rw [hus]
    have h2 : receiveExact payload.length (payload ++ rest) =
        .ok (some payload, rest) := by
      unfold receiveExact
      rw [if_pos (by simp)]
      rw [List.take_left, List.drop_left]
    rw [h2]
    cases h3 : Message.fromTag tag payload <;> simp [h3, optBytes]

/-- C8 witness: a complete `ParseComplete` frame (`'1'`, length 4, empty
payload) decodes in place with the remaining stream preserved, and the
truncated stream `[49]` fails with `Io`. -/
theorem socket_receive_framing_witness :
    socketReceive [49, 0, 0, 0, 4, 90] = .okSome .parseComplete [90] ∧
    (socketReceive [49]).isOkNone = false := by
  constructor
  · have h := socket_receive_framing.2 49 [] [90] (by norm_num)
    simpa using h
  · exact socket_receive_framing.1 [49]

end LibPq
